import Mathlib

/-!
Verification of the Kirby Gate covenant-enforcement tracker
(`kirbygate.py`): the proration/arrears calculation engine, the
settlement calculator, the deadline scheduler, and the parcel/audit-log
state model. Python numbers are embedded as `ℚ`; SQL rows as Lean
structures; exceptions as `Option`/`Except`.
-/

set_option maxRecDepth 65536

namespace KirbyGate

/-! ### Character-list string helpers

Structurally recursive equivalents of the Python string operations used
by the parsers, so that concrete runs reduce inside the kernel. -/

def isSpaceChar (c : Char) : Bool :=
  c = (' ') || c = ('\t') || c = ('\n') || c = ('\r')

/-- Python `str.strip()`. -/
def trimChars (cs : List Char) : List Char :=
  ((cs.dropWhile isSpaceChar).reverse.dropWhile isSpaceChar).reverse

/-- Split a character list on a separator character (every occurrence). -/
def splitOnChar (sep : Char) : List Char → List (List Char)
  | [] => [[]]
  | c :: rest =>
    match splitOnChar sep rest with
    | [] => if c = sep then [[], []] else [[c]]
    | g :: gs => if c = sep then [] :: g :: gs else (c :: g) :: gs

/-- Value of a digit run, most significant first. -/
def digitsVal (cs : List Char) : Nat :=
  cs.foldl (fun a c => a * 10 + (c.toNat - (('0').toNat))) 0

/-! ### Constants (kirbygate.py lines 26-34) -/

def TOTAL_CAMPUS_SQFT : ℚ := 672718

def HISTORIC_WEEKLY_RATE : ℚ := 6069.52

def CURRENT_WEEKLY_RATE : ℚ := 9000.00

def ARREARS_WEEKS : ℚ := 156

/-! ### Calculation engine (kirbygate.py lines 221-234) -/

/-- `calc_pct(sqft)`: `sqft / TOTAL_CAMPUS_SQFT` (line 221-222). -/
def calc_pct (sqft : ℚ) : ℚ := sqft / TOTAL_CAMPUS_SQFT

/-- `calc_historic_weekly(sqft)` (line 224-225). -/
def calc_historic_weekly (sqft : ℚ) : ℚ := HISTORIC_WEEKLY_RATE * calc_pct sqft

/-- `calc_current_weekly(sqft)` (line 227-228). -/
def calc_current_weekly (sqft : ℚ) : ℚ := CURRENT_WEEKLY_RATE * calc_pct sqft

/-- `calc_arrears_36mo(sqft)` (line 230-231). -/
def calc_arrears_36mo (sqft : ℚ) : ℚ := calc_historic_weekly sqft * ARREARS_WEEKS

/-- `calc_forward_monthly(sqft)` (line 233-234): the multiplier is the
literal constant `4.333`. -/
def calc_forward_monthly (sqft : ℚ) : ℚ := calc_current_weekly sqft * 4.333

/-! ### Parcel rows

The columns of the `parcels` table that the calculation engine and the
mutation paths read or write. Nullable SQL columns are `Option`. -/

structure Parcel where
  id : Nat
  business_name : String
  sqft : Option Int
  pct_campus : Option ℚ
  status : String
  past_due_balance : Option ℚ
  weekly_rate : Option ℚ
  certified_mail_tracking : Option String
  date_packet_sent : Option String
  cure_deadline : Option String
  lien_filing_date : Option String
  attorney_referral_date : Option String
  enforcement_step : Option String
  next_action : Option String
deriving DecidableEq

/-- `get_arrears(row)` (kirbygate.py lines 236-242): a stored
`past_due_balance` that is non-null and non-zero wins; otherwise the
36-month formula for DELINQUENT/DISPUTED/RECON parcels; otherwise 0.
`row["sqft"] or 0` is `Option.getD 0`. -/
def get_arrears (row : Parcel) : ℚ :=
  if row.past_due_balance ≠ none ∧ row.past_due_balance ≠ some 0 then
    row.past_due_balance.getD 0
  else if row.status = (r"DELINQUENT") ∨ row.status = (r"DISPUTED") ∨
      row.status = (r"RECON") then
    calc_arrears_36mo ((row.sqft.getD 0 : Int) : ℚ)
  else 0

/-- `get_weekly(row)` (kirbygate.py lines 244-248): stored non-null
non-zero `weekly_rate` wins, otherwise `calc_current_weekly(sqft or 0)`. -/
def get_weekly (row : Parcel) : ℚ :=
  if row.weekly_rate ≠ none ∧ row.weekly_rate ≠ some 0 then
    row.weekly_rate.getD 0
  else calc_current_weekly ((row.sqft.getD 0 : Int) : ℚ)

/-- `get_forward_monthly(row)` (kirbygate.py lines 250-252). -/
def get_forward_monthly (row : Parcel) : ℚ := get_weekly row * 4.333

/-! ### Settlement calculator (kirbygate.py lines 300-316) -/

structure SettlementResult where
  settled_amount : ℚ
  monthly_no_interest : ℚ
  total_with_interest : ℚ
  monthly_with_interest : ℚ
  savings_vs_full : ℚ
  savings_pct : ℚ
  savings_vs_litigation : ℚ
deriving DecidableEq

/-- `calc_settlement(principal, discount_pct, interest_rate, term_months)`:
the Python `x / term_months if term_months else 0` guard is the
`if term_months ≠ 0` branch. -/
def calc_settlement (principal discount_pct interest_rate term_months : ℚ) :
    SettlementResult :=
  let settled := principal * (1 - discount_pct)
  let monthly_no_int := if term_months ≠ 0 then settled / term_months else 0
  let total_with_int := settled * (1 + interest_rate * (term_months / 12))
  let monthly_with_int := if term_months ≠ 0 then total_with_int / term_months else 0
  let litigation_est := principal * 1.40
  { settled_amount := settled
    monthly_no_interest := monthly_no_int
    total_with_interest := total_with_int
    monthly_with_interest := monthly_with_int
    savings_vs_full := principal - settled
    savings_pct := discount_pct
    savings_vs_litigation := litigation_est - total_with_int }

/-! ### Calendar dates

`datetime.strptime(s, "%Y-%m-%d")` / `timedelta(days=n)` /
`strftime("%Y-%m-%d")` over proleptic Gregorian dates. -/

structure Date where
  year : Nat
  month : Nat
  day : Nat
deriving DecidableEq

def isLeap (y : Nat) : Bool :=
  y % 4 == 0 && (y % 100 != 0 || y % 400 == 0)

def daysInMonth (y m : Nat) : Nat :=
  if m = 2 then (if isLeap y then 29 else 28)
  else if m = 4 ∨ m = 6 ∨ m = 9 ∨ m = 11 then 30
  else 31

/-- Successor day (`date + timedelta(days=1)`). -/
def nextDay (d : Date) : Date :=
  if d.day < daysInMonth d.year d.month then ⟨d.year, d.month, d.day + 1⟩
  else if d.month < 12 then ⟨d.year, d.month + 1, 1⟩
  else ⟨d.year + 1, 1, 1⟩

/-- `date + timedelta(days=n)`. -/
def addDays : Date → Nat → Date
  | d, 0 => d
  | d, n + 1 => addDays (nextDay d) n

/-- Days in months strictly before month `m` of year `y`. -/
def daysBeforeMonth (y m : Nat) : Nat :=
  (List.range (m - 1)).foldl (fun acc i => acc + daysInMonth y (i + 1)) 0

/-- Day count since the epoch 0001-01-01 (rata die), used for
`(date_a - date_b).days`. -/
def toDayNumber (d : Date) : Nat :=
  let y := d.year - 1
  y * 365 + y / 4 - y / 100 + y / 400 + daysBeforeMonth d.year d.month + d.day

/-- `(deadline - today).days` for two dates. -/
def days_left (deadline today : Date) : Int :=
  (toDayNumber deadline : Int) - (toDayNumber today : Int)

def pad2 (n : Nat) : String :=
  if n < 10 then (r"0") ++ toString n else toString n

def pad4 (n : Nat) : String :=
  if n < 10 then (r"000") ++ toString n
  else if n < 100 then (r"00") ++ toString n
  else if n < 1000 then (r"0") ++ toString n
  else toString n

/-- `strftime("%Y-%m-%d")`. -/
def Date.format (d : Date) : String :=
  pad4 d.year ++ (r"-") ++ pad2 d.month ++ (r"-") ++ pad2 d.day

/-- `datetime.strptime(s, "%Y-%m-%d")`: three dash-separated digit
runs forming a valid calendar date; `none` models the raised
`ValueError` on an unparseable date. -/
def parseDate (s : String) : Option Date :=
  match splitOnChar ('-') s.toList with
  | [ys, ms, ds] =>
    if ys ≠ [] ∧ ys.all Char.isDigit ∧ ms ≠ [] ∧ ms.all Char.isDigit ∧
        ds ≠ [] ∧ ds.all Char.isDigit then
      let y := digitsVal ys
      let m := digitsVal ms
      let d := digitsVal ds
      if 1 ≤ m ∧ m ≤ 12 ∧ 1 ≤ d ∧ d ≤ daysInMonth y m then some ⟨y, m, d⟩
      else none
    else none
  | _ => none

/-! ### Deadline scheduler (kirbygate.py lines 254-261) -/

structure Deadlines where
  cure_deadline : String
  lien_filing_date : String
  attorney_referral_date : String
deriving DecidableEq

/-- `calc_deadlines(date_sent_str)`: cure/lien/attorney at +30/+45/+60
days from the parsed sent date. -/
def calc_deadlines (date_sent_str : String) : Option Deadlines :=
  (parseDate date_sent_str).map fun sent =>
    { cure_deadline := (addDays sent 30).format
      lien_filing_date := (addDays sent 45).format
      attorney_referral_date := (addDays sent 60).format }

/-! ### Urgency classification (view_deadlines, kirbygate.py lines
1508-1523): the color-flag branch on `days_left`. -/

inductive Urgency
  | overdue
  | urgent
  | soon
  | normal
deriving DecidableEq

def classify_days_left (days : Int) : Urgency :=
  if days < 0 then .overdue
  else if days ≤ 7 then .urgent
  else if days ≤ 14 then .soon
  else .normal

/-! ### Audit log and tracking store -/

/-- A row of the `enforcement_log` table. `parcel_id = none` is a
campus-wide entry. -/
structure LogEntry where
  parcel_id : Option Nat
  timestamp : String
  action : String
  sent_via : Option String
  response_due : Option String
  response_received : Option String
  next_step : Option String
  attorney : Option String
  cost : ℚ
  notes : Option String
deriving DecidableEq

/-- The persisted store: the `parcels` table and the `enforcement_log`
table (insertion order = autoincrement id order). -/
structure State where
  parcels : List Parcel
  log : List LogEntry
deriving DecidableEq

/-! ### set_packet_sent (kirbygate.py lines 263-298) -/

/-- `set_packet_sent(conn, parcel_id, date_sent_str, tracking_number)`:
parses the sent date (`none` = the strptime ValueError propagates with
the transaction untouched), updates the parcel row, and inserts exactly
one log entry, in one commit. -/
def set_packet_sent (st : State) (parcel_id : Nat) (date_sent_str : String)
    (tracking_number : Option String) (now : String) : Option State :=
  match calc_deadlines date_sent_str with
  | none => none
  | some dl => some
    { parcels := st.parcels.map fun p =>
        if p.id = parcel_id then
          { p with
            date_packet_sent := some date_sent_str
            certified_mail_tracking :=
              match tracking_number with
              | some t => some t
              | none => p.certified_mail_tracking
            cure_deadline := some dl.cure_deadline
            lien_filing_date := some dl.lien_filing_date
            attorney_referral_date := some dl.attorney_referral_date
            enforcement_step := some (r"Demand Sent")
            next_action := some ((r"Await cure by ") ++ dl.cure_deadline) }
        else p
      log := st.log ++ [{
        parcel_id := some parcel_id
        timestamp := now
        action := (r"Demand packet sent on ") ++ date_sent_str ++
          (match tracking_number with
           | some t => (r", tracking: ") ++ t
           | none => (r""))
        sent_via := some (r"USPS Certified")
        response_due := some dl.cure_deadline
        response_received := none
        next_step := some ((r"Cure by ") ++ dl.cure_deadline ++
          (r", lien by ") ++ dl.lien_filing_date ++
          (r", attorney by ") ++ dl.attorney_referral_date)
        attorney := some (r"Rosenblum")
        cost := 0
        notes := some ((r"30-day cure: ") ++ dl.cure_deadline ++
          (r" | 45-day lien: ") ++ dl.lien_filing_date ++
          (r" | 60-day attorney: ") ++ dl.attorney_referral_date) }] }

/-! ### Python numeric parsing

`int(value.replace(",", ""))` and
`float(value.replace("$", "").replace(",", ""))` as `Option`-valued
parsers (`none` = the ValueError caught by the update path). -/

def removeCommas (s : String) : String :=
  String.mk (s.toList.filter fun c => c != (','))

def removeDollarsCommas (s : String) : String :=
  String.mk (s.toList.filter fun c => c != (',') && c != ('$'))

/-- `int(s)`: optional sign then a nonempty digit run. -/
def pyIntOfString (s : String) : Option Int :=
  let cs := trimChars s.toList
  match cs with
  | [] => none
  | c :: rest =>
    if c = ('-') then
      if rest ≠ [] ∧ rest.all Char.isDigit then some (-(digitsVal rest : Int))
      else none
    else if c = ('+') then
      if rest ≠ [] ∧ rest.all Char.isDigit then some ((digitsVal rest : Int))
      else none
    else if cs.all Char.isDigit then some ((digitsVal cs : Int))
    else none

/-- Split a character list at the first dot, if any. -/
def splitDot : List Char → (List Char × Option (List Char))
  | [] => ([], none)
  | c :: rest =>
    if c = ('.') then ([], some rest)
    else
      let p := splitDot rest
      (c :: p.1, p.2)

/-- `float(s)` restricted to plain decimal literals: optional sign then
`d+`, `d+.d*` or `.d+`. -/
def pyFloatOfString (s : String) : Option ℚ :=
  let t := trimChars s.toList
  let signBody : ℚ × List Char :=
    match t with
    | ('-') :: rest => (-1, rest)
    | ('+') :: rest => (1, rest)
    | cs => (1, cs)
  let sign := signBody.1
  match splitDot signBody.2 with
  | (ds, none) =>
    if ds ≠ [] ∧ ds.all Char.isDigit then some (sign * (digitsVal ds : ℚ))
    else none
  | (ds, some fs) =>
    if (ds ≠ [] ∨ fs ≠ []) ∧ ds.all Char.isDigit ∧ fs.all Char.isDigit then
      some (sign * ((digitsVal ds : ℚ) + (digitsVal fs : ℚ) / (10 : ℚ) ^ fs.length))
    else none

/-! ### update_parcel, numeric branches (kirbygate.py lines 556-584) -/

/-- The three numeric fields of the update menu: Square Footage (9),
Past Due Balance (10), Weekly Rate (11). -/
inductive NumField
  | sqft
  | past_due_balance
  | weekly_rate
deriving DecidableEq

/-- The audit row `update_parcel` inserts after a successful write. -/
def updateLogEntry (pid : Nat) (now action : String) : LogEntry :=
  { parcel_id := some pid
    timestamp := now
    action := action
    sent_via := none
    response_due := none
    response_received := none
    next_step := none
    attorney := none
    cost := 0
    notes := some (r"Changed by user") }

/-- The write phase of `update_parcel` for a numeric field: parse the
raw input (early return on ValueError leaves the connection untouched),
then update the field — recomputing `pct_campus` alongside `sqft` — and
insert one audit row in the same commit. -/
def update_parcel_numeric (st : State) (pid : Nat) (field : NumField)
    (value now action : String) : State :=
  match field with
  | .sqft =>
    match pyIntOfString (removeCommas value) with
    | none => st
    | some v =>
      { parcels := st.parcels.map fun p =>
          if p.id = pid then
            { p with sqft := some v,
                     pct_campus := some ((v : ℚ) / TOTAL_CAMPUS_SQFT) }
          else p
        log := st.log ++ [updateLogEntry pid now action] }
  | .past_due_balance =>
    match pyFloatOfString (removeDollarsCommas value) with
    | none => st
    | some v =>
      { parcels := st.parcels.map fun p =>
          if p.id = pid then { p with past_due_balance := some v } else p
        log := st.log ++ [updateLogEntry pid now action] }
  | .weekly_rate =>
    match pyFloatOfString (removeDollarsCommas value) with
    | none => st
    | some v =>
      { parcels := st.parcels.map fun p =>
          if p.id = pid then { p with weekly_rate := some v } else p
        log := st.log ++ [updateLogEntry pid now action] }

/-- The parsed numeric value of an update input, as the engine stores it
(`sqft` parses as int, balances and rates as float). -/
def numeric_parse (field : NumField) (value : String) : Option ℚ :=
  match field with
  | .sqft =>
    match pyIntOfString (removeCommas value) with
    | none => none
    | some i => some ((i : ℚ))
  | .past_due_balance => pyFloatOfString (removeDollarsCommas value)
  | .weekly_rate => pyFloatOfString (removeDollarsCommas value)

/-- Read back the stored value of a numeric field. -/
def numeric_read (field : NumField) (p : Parcel) : Option ℚ :=
  match field with
  | .sqft => p.sqft.map fun i => (i : ℚ)
  | .past_due_balance => p.past_due_balance
  | .weekly_rate => p.weekly_rate

/-! ### Pro-rata calculator adjustment (kirbygate.py lines 1344-1364) -/

/-- The square-footage adjustment of the pro-rata calculator: parse the
new square footage (early return on ValueError), set `sqft` and the
recomputed `pct_campus`, insert one audit row, commit. -/
def prorata_adjust (st : State) (pid : Nat) (new_sf : String)
    (now action : String) : State :=
  match pyIntOfString (removeCommas new_sf) with
  | none => st
  | some v =>
    { parcels := st.parcels.map fun p =>
        if p.id = pid then
          { p with sqft := some v,
                   pct_campus := some ((v : ℚ) / TOTAL_CAMPUS_SQFT) }
        else p
      log := st.log ++ [{
        parcel_id := some pid
        timestamp := now
        action := action
        sent_via := none
        response_due := none
        response_received := none
        next_step := none
        attorney := none
        cost := 0
        notes := some (r"Pro-rata calculator adjustment") }] }

/-! ### The prorate contract (spec section 4.1 over calc_pct) -/

/-- Modelled from the spec: the spec's `prorate(area, total_area, rate)`
contract has no counterpart with a `total_area` parameter in the source;
`calc_pct` (kirbygate.py lines 221-222) divides by the fixed constant
`TOTAL_CAMPUS_SQFT` with no validation, so the generalised computation
`rate * (area / total_area)` fails only where Python division itself
fails, on `total_area = 0` (ZeroDivisionError). -/
def prorate (area total_area rate : ℚ) : Except String ℚ :=
  if total_area = 0 then .error (r"ZeroDivisionError")
  else .ok (rate * (area / total_area))

/-! ### Demonstration rows and stores used by the witnesses -/

def overrideRow : Parcel :=
  { id := 21
    business_name := (r"Car Wash (GX18)")
    sqft := some 5000
    pct_campus := none
    status := (r"VERIFY")
    past_due_balance := none
    weekly_rate := some 1
    certified_mail_tracking := none
    date_packet_sent := none
    cure_deadline := none
    lien_filing_date := none
    attorney_referral_date := none
    enforcement_step := some (r"Research")
    next_action := none }

def arrearsRow : Parcel :=
  { id := 10
    business_name := (r"Pointe at Kirby (MedHCP)")
    sqft := some 31061
    pct_campus := none
    status := (r"DELINQUENT")
    past_due_balance := some 5
    weekly_rate := none
    certified_mail_tracking := none
    date_packet_sent := none
    cure_deadline := none
    lien_filing_date := none
    attorney_referral_date := none
    enforcement_step := some (r"Demand Sent")
    next_action := none }

/-! ### Claim theorems -/

/-- Claim C1: `get_arrears` returns a stored non-null non-zero balance
verbatim (negative values included); on a null or zero stored balance it
returns `historic_weekly(area) * 156` when the status is DELINQUENT,
DISPUTED or RECON, and zero for every other status. -/
theorem get_arrears_spec (row : Parcel) :
    (∀ b : ℚ, row.past_due_balance = some b → b ≠ 0 → get_arrears row = b) ∧
    (row.past_due_balance = none ∨ row.past_due_balance = some 0 →
      (∀ a : Int, row.sqft = some a →
        (row.status = (r"DELINQUENT") ∨ row.status = (r"DISPUTED") ∨
          row.status = (r"RECON")) →
        get_arrears row = calc_historic_weekly (a : ℚ) * 156) ∧
      (¬(row.status = (r"DELINQUENT") ∨ row.status = (r"DISPUTED") ∨
          row.status = (r"RECON")) →
        get_arrears row = 0)) := by
  constructor
  · intro b hb hbne
    simp [get_arrears, hb, hbne]
  · intro h0
    have hcond : ¬(row.past_due_balance ≠ none ∧ row.past_due_balance ≠ some 0) := by
      rcases h0 with h | h <;> simp [h]
    constructor
    · intro a ha hs
      unfold get_arrears
      rw [if_neg hcond, if_pos hs, ha]
      simp [calc_arrears_36mo, ARREARS_WEEKS]
    · intro hns
      unfold get_arrears
      rw [if_neg hcond, if_neg hns]

/-- Witness for C1: a DELINQUENT row with stored balance 5 gets the
override verbatim. -/
theorem get_arrears_spec_witness : get_arrears arrearsRow = 5 :=
  (get_arrears_spec arrearsRow).1 5 rfl (by norm_num)

/-- Claim C4: `calc_settlement` computes the settled amount, monthly
figures, interest total, litigation premium and both savings columns by
the stated closed-form formulas; at `(100000, 0.35, 0.02, 36)` the exact
figures are 65000, 68900, 35000 and 71100, with the monthly figures
within half a cent of 1805.56 and 1913.89. -/
theorem calc_settlement_spec (principal discount_pct interest_rate term_months : ℚ)
    (h : term_months ≠ 0) :
    ((calc_settlement principal discount_pct interest_rate term_months).settled_amount
        = principal * (1 - discount_pct) ∧
      (calc_settlement principal discount_pct interest_rate term_months).monthly_no_interest
        = principal * (1 - discount_pct) / term_months ∧
      (calc_settlement principal discount_pct interest_rate term_months).total_with_interest
        = principal * (1 - discount_pct) * (1 + interest_rate * (term_months / 12)) ∧
      (calc_settlement principal discount_pct interest_rate term_months).monthly_with_interest
        = principal * (1 - discount_pct) * (1 + interest_rate * (term_months / 12))
            / term_months ∧
      (calc_settlement principal discount_pct interest_rate term_months).savings_vs_full
        = principal - principal * (1 - discount_pct) ∧
      (calc_settlement principal discount_pct interest_rate term_months).savings_vs_litigation
        = principal * 1.40
            - principal * (1 - discount_pct) * (1 + interest_rate * (term_months / 12))) ∧
    ((calc_settlement 100000 0.35 0.02 36).settled_amount = 65000 ∧
      (calc_settlement 100000 0.35 0.02 36).total_with_interest = 68900 ∧
      (calc_settlement 100000 0.35 0.02 36).savings_vs_full = 35000 ∧
      (calc_settlement 100000 0.35 0.02 36).savings_vs_litigation = 71100 ∧
      |(calc_settlement 100000 0.35 0.02 36).monthly_no_interest - 1805.56| < 0.005 ∧
      |(calc_settlement 100000 0.35 0.02 36).monthly_with_interest - 1913.89| < 0.005) := by
  constructor
  · simp [calc_settlement, h]
  · norm_num [calc_settlement, abs_lt]

/-- Witness for C4: the monthly-no-interest formula at the spec's
concrete settlement example. -/
theorem calc_settlement_spec_witness :
    (calc_settlement 100000 0.35 0.02 36).monthly_no_interest
      = 100000 * (1 - 0.35) / 36 :=
  (calc_settlement_spec 100000 0.35 0.02 36 (by norm_num)).1.2.1

/-- Claim C5 counterexample: with a stored weekly rate of 1 the forward
monthly figure is the literal `4.333`, not `365.25/12/7 ≈ 4.3482`, so
the claimed identity `forward_monthly(w) = w * (365.25/12/7)` fails at
`w = 1`. -/
theorem forward_monthly_factor_cex :
    get_forward_monthly overrideRow ≠ 1 * ((365.25 : ℚ) / 12 / 7) := by
  have hw : get_weekly overrideRow = 1 := by
    unfold get_weekly
    rw [if_pos ⟨by simp [overrideRow], by simp [overrideRow]⟩]
    rfl
  unfold get_forward_monthly
  rw [hw]
  norm_num

/-- Claim C5 (amended): for a parcel with stored weekly rate `w ≠ 0`,
`get_forward_monthly` returns exactly `w * 4.333`; the multiplier is the
literal constant `4.333`, which differs from `365.25/12/7`. -/
theorem forward_monthly_literal (row : Parcel) (w : ℚ)
    (hw : row.weekly_rate = some w) (h0 : w ≠ 0) :
    get_forward_monthly row = w * 4.333 ∧ (4.333 : ℚ) ≠ 365.25 / 12 / 7 := by
  constructor
  · unfold get_forward_monthly get_weekly
    simp [hw, h0]
  · norm_num

/-- Witness for C5's amended theorem at the stored rate 1. -/
theorem forward_monthly_literal_witness :
    get_forward_monthly overrideRow = 1 * 4.333 ∧ (4.333 : ℚ) ≠ 365.25 / 12 / 7 :=
  forward_monthly_literal overrideRow 1 rfl (by norm_num)

/-- Claim C7: proration is linear — complementary floor areas split the
full-campus weekly charge exactly. -/
theorem current_weekly_linear (a : ℚ) (h0 : 0 ≤ a) (h1 : a ≤ TOTAL_CAMPUS_SQFT) :
    calc_current_weekly a + calc_current_weekly (TOTAL_CAMPUS_SQFT - a)
      = calc_current_weekly TOTAL_CAMPUS_SQFT := by
  have hT : TOTAL_CAMPUS_SQFT ≠ 0 := by norm_num [TOTAL_CAMPUS_SQFT]
  unfold calc_current_weekly calc_pct
  field_simp
  ring

/-- Witness for C7 at the area of the largest seeded parcel. -/
theorem current_weekly_linear_witness :
    calc_current_weekly 72400 + calc_current_weekly (TOTAL_CAMPUS_SQFT - 72400)
      = calc_current_weekly TOTAL_CAMPUS_SQFT :=
  current_weekly_linear 72400 (by norm_num) (by norm_num [TOTAL_CAMPUS_SQFT])

/-- Claim C8: with `term_months = 0` both monthly settlement figures are
clamped to zero — the guarded division branch is never taken. -/
theorem calc_settlement_zero_term (principal discount_pct interest_rate : ℚ) :
    (calc_settlement principal discount_pct interest_rate 0).monthly_no_interest = 0 ∧
    (calc_settlement principal discount_pct interest_rate 0).monthly_with_interest = 0 := by
  simp [calc_settlement]

/-- Claim C9: the deadline-view urgency tiers over `days_left`:
negative = overdue, 0 to 7 = urgent, 8 to 14 = soon, above 14 = normal;
a deadline equal to today gives 0 days and is urgent, not soon. -/
theorem days_left_classification (deadline today : Date) (days : Int) :
    (days < 0 → classify_days_left days = .overdue) ∧
    (0 ≤ days ∧ days ≤ 7 → classify_days_left days = .urgent) ∧
    (8 ≤ days ∧ days ≤ 14 → classify_days_left days = .soon) ∧
    (14 < days → classify_days_left days = .normal) ∧
    (deadline = today →
      days_left deadline today = 0 ∧
      classify_days_left (days_left deadline today) = .urgent) := by
  refine ⟨fun h => ?_, fun h => ?_, fun h => ?_, fun h => ?_, fun h => ?_⟩
  · simp [classify_days_left, h]
  · have hn : ¬ days < 0 := by omega
    simp [classify_days_left, hn, h.2]
  · have hn : ¬ days < 0 := by omega
    have h7 : ¬ days ≤ 7 := by omega
    simp [classify_days_left, hn, h7, h.2]
  · have hn : ¬ days < 0 := by omega
    have h7 : ¬ days ≤ 7 := by omega
    have h14 : ¬ days ≤ 14 := by omega
    simp [classify_days_left, hn, h7, h14]
  · have hz : days_left deadline today = 0 := by rw [h]; simp [days_left]
    refine ⟨hz, ?_⟩
    rw [hz]
    norm_num [classify_days_left]

/-- Witness for C9: the cure date itself, seen on its own day. -/
theorem days_left_classification_witness :
    days_left ⟨2026, 1, 31⟩ ⟨2026, 1, 31⟩ = 0 ∧
    classify_days_left (days_left ⟨2026, 1, 31⟩ ⟨2026, 1, 31⟩) = .urgent :=
  (days_left_classification ⟨2026, 1, 31⟩ ⟨2026, 1, 31⟩ 0).2.2.2.2 rfl

/-- Claim C10 counterexample: the proration computation carries no
total-area validation — at `total_area = -1 ≤ 0` it returns the amount
`rate * (area / total_area)` instead of failing. -/
theorem prorate_negative_total_cex :
    (-1 : ℚ) ≤ 0 ∧ prorate 100 (-1) 9000 = .ok (-900000) := by
  constructor
  · norm_num
  · norm_num [prorate]

/-- Claim C10 (amended): `prorate` does not reject non-positive totals
as a configuration error: any `total_area < 0` yields the computed
amount, only `total_area = 0` fails (Python's ZeroDivisionError), and
the in-code divisor `TOTAL_CAMPUS_SQFT` is the fixed positive constant. -/
theorem prorate_unvalidated (area rate total_area : ℚ) (hneg : total_area < 0) :
    prorate area total_area rate = .ok (rate * (area / total_area)) ∧
    prorate area 0 rate = .error (r"ZeroDivisionError") ∧
    (0 : ℚ) < TOTAL_CAMPUS_SQFT := by
  refine ⟨?_, ?_, by norm_num [TOTAL_CAMPUS_SQFT]⟩
  · have hne : total_area ≠ 0 := ne_of_lt hneg
    simp [prorate, hne]
  · simp [prorate]

/-- Witness for C10's amended theorem at `total_area = -1`. -/
theorem prorate_unvalidated_witness :
    prorate 100 (-1) 9000 = .ok (9000 * (100 / (-1 : ℚ))) :=
  (prorate_unvalidated 100 9000 (-1) (by norm_num)).1

def demoState : State := { parcels := [arrearsRow], log := [] }

/-- Claim C2: marking a packet sent on a parseable date sets the cure,
lien and attorney dates at +30, +45 and +60 days, sets the enforcement
step to Demand Sent, and appends exactly one audit entry referencing the
parcel; for the sent date 2026-01-01 the three dates are 2026-01-31,
2026-02-15 and 2026-03-02. -/
theorem set_packet_sent_spec (st : State) (pid : Nat) (s : String)
    (tr : Option String) (now : String) (d : Date) (h : parseDate s = some d) :
    (set_packet_sent st pid s tr now ≠ none ∧
      ∀ st', set_packet_sent st pid s tr now = some st' →
        (∀ p ∈ st'.parcels, p.id = pid →
          p.cure_deadline = some (addDays d 30).format ∧
          p.lien_filing_date = some (addDays d 45).format ∧
          p.attorney_referral_date = some (addDays d 60).format ∧
          p.enforcement_step = some (r"Demand Sent")) ∧
        (∃ e, st'.log = st.log ++ [e] ∧ e.parcel_id = some pid)) ∧
    (addDays ⟨2026, 1, 1⟩ 30).format = (r"2026-01-31") ∧
    (addDays ⟨2026, 1, 1⟩ 45).format = (r"2026-02-15") ∧
    (addDays ⟨2026, 1, 1⟩ 60).format = (r"2026-03-02") := by
  have hcd : calc_deadlines s = some
      { cure_deadline := (addDays d 30).format
        lien_filing_date := (addDays d 45).format
        attorney_referral_date := (addDays d 60).format } := by
    unfold calc_deadlines
    rw [h]
    rfl
  refine ⟨⟨?_, ?_⟩, by decide, by decide, by decide⟩
  · unfold set_packet_sent
    rw [hcd]
    simp
  · intro st' heq
    unfold set_packet_sent at heq
    rw [hcd] at heq
    injection heq with heq
    subst heq
    constructor
    · intro p hp hpid
      rw [List.mem_map] at hp
      obtain ⟨q, hq, rfl⟩ := hp
      by_cases hid : q.id = pid
      · rw [if_pos hid]
        exact ⟨rfl, rfl, rfl, rfl⟩
      · rw [if_neg hid] at hpid
        exact absurd hpid hid
    · exact ⟨_, rfl, rfl⟩

/-- Witness for C2: one packet marked sent on 2026-01-01 in a one-parcel
store. -/
theorem set_packet_sent_spec_witness :
    (set_packet_sent demoState 10 (r"2026-01-01") none (r"2026-01-01 09:00:00") ≠ none ∧
      ∀ st', set_packet_sent demoState 10 (r"2026-01-01") none
          (r"2026-01-01 09:00:00") = some st' →
        (∀ p ∈ st'.parcels, p.id = 10 →
          p.cure_deadline = some (addDays ⟨2026, 1, 1⟩ 30).format ∧
          p.lien_filing_date = some (addDays ⟨2026, 1, 1⟩ 45).format ∧
          p.attorney_referral_date = some (addDays ⟨2026, 1, 1⟩ 60).format ∧
          p.enforcement_step = some (r"Demand Sent")) ∧
        (∃ e, st'.log = demoState.log ++ [e] ∧ e.parcel_id = some 10)) ∧
    (addDays ⟨2026, 1, 1⟩ 30).format = (r"2026-01-31") ∧
    (addDays ⟨2026, 1, 1⟩ 45).format = (r"2026-02-15") ∧
    (addDays ⟨2026, 1, 1⟩ 60).format = (r"2026-03-02") :=
  set_packet_sent_spec demoState 10 (r"2026-01-01") none
    (r"2026-01-01 09:00:00") ⟨2026, 1, 1⟩ (by decide)

/-- Claim C3: `update_parcel` is atomic on numeric fields — an
unparseable value leaves the whole store (parcel table and audit log)
unchanged, and a parseable value changes the field and appends exactly
one audit entry in the same commit. -/
theorem update_parcel_atomic (st : State) (pid : Nat) (field : NumField)
    (value now action : String) :
    (numeric_parse field value = none →
      update_parcel_numeric st pid field value now action = st) ∧
    (∀ x : ℚ, numeric_parse field value = some x →
      (∃ e, (update_parcel_numeric st pid field value now action).log
          = st.log ++ [e]) ∧
      (update_parcel_numeric st pid field value now action).log.length
        = st.log.length + 1 ∧
      ∀ p ∈ (update_parcel_numeric st pid field value now action).parcels,
        p.id = pid → numeric_read field p = some x) := by
  cases field
  case sqft =>
    constructor
    · intro h
      simp only [numeric_parse] at h
      simp only [update_parcel_numeric]
      cases hpi : pyIntOfString (removeCommas value) with
      | none => rfl
      | some i => rw [hpi] at h; exact Option.noConfusion h
    · intro x hx
      simp only [numeric_parse] at hx
      cases hpi : pyIntOfString (removeCommas value) with
      | none => rw [hpi] at hx; exact Option.noConfusion hx
      | some i =>
        rw [hpi] at hx
        have hxe : (i : ℚ) = x := Option.some.inj hx
        subst hxe
        simp only [update_parcel_numeric]
        rw [hpi]
        refine ⟨⟨_, rfl⟩, by simp, ?_⟩
        intro p hp hpid
        simp only [List.mem_map] at hp
        obtain ⟨q, hq, rfl⟩ := hp
        by_cases hid : q.id = pid
        · rw [if_pos hid]
          rfl
        · rw [if_neg hid] at hpid
          exact absurd hpid hid
  case past_due_balance =>
    constructor
    · intro h
      simp only [numeric_parse] at h
      simp only [update_parcel_numeric]
      rw [h]
    · intro x hx
      simp only [numeric_parse] at hx
      simp only [update_parcel_numeric]
      rw [hx]
      refine ⟨⟨_, rfl⟩, by simp, ?_⟩
      intro p hp hpid
      simp only [List.mem_map] at hp
      obtain ⟨q, hq, rfl⟩ := hp
      by_cases hid : q.id = pid
      · rw [if_pos hid]
        rfl
      · rw [if_neg hid] at hpid
        exact absurd hpid hid
  case weekly_rate =>
    constructor
    · intro h
      simp only [numeric_parse] at h
      simp only [update_parcel_numeric]
      rw [h]
    · intro x hx
      simp only [numeric_parse] at hx
      simp only [update_parcel_numeric]
      rw [hx]
      refine ⟨⟨_, rfl⟩, by simp, ?_⟩
      intro p hp hpid
      simp only [List.mem_map] at hp
      obtain ⟨q, hq, rfl⟩ := hp
      by_cases hid : q.id = pid
      · rw [if_pos hid]
        rfl
      · rw [if_neg hid] at hpid
        exact absurd hpid hid

/-- Witness for C3: an unparseable balance aborts the whole operation on
the demonstration store. -/
theorem update_parcel_atomic_witness :
    update_parcel_numeric demoState 10 .past_due_balance (r"oops")
      (r"2026-01-02 09:00:00") (r"Updated Past Due Balance to: oops") = demoState :=
  (update_parcel_atomic demoState 10 .past_due_balance (r"oops")
    (r"2026-01-02 09:00:00") (r"Updated Past Due Balance to: oops")).1 (by decide)

/-- Claim C6: both area-changing operations (the sqft branch of
`update_parcel` and the pro-rata calculator's adjustment) recompute
`pct_campus` as the new floor area over `TOTAL_CAMPUS_SQFT` in the same
operation. -/
theorem pct_campus_recompute (st : State) (pid : Nat)
    (value now action : String) (v : Int)
    (h : pyIntOfString (removeCommas value) = some v) :
    (∀ p ∈ (update_parcel_numeric st pid .sqft value now action).parcels,
      p.id = pid →
        p.sqft = some v ∧ p.pct_campus = some ((v : ℚ) / TOTAL_CAMPUS_SQFT)) ∧
    (∀ p ∈ (prorata_adjust st pid value now action).parcels,
      p.id = pid →
        p.sqft = some v ∧ p.pct_campus = some ((v : ℚ) / TOTAL_CAMPUS_SQFT)) := by
  constructor
  · intro p hp hpid
    simp only [update_parcel_numeric] at hp
    rw [h] at hp
    simp only [List.mem_map] at hp
    obtain ⟨q, hq, rfl⟩ := hp
    by_cases hid : q.id = pid
    · rw [if_pos hid]
      exact ⟨rfl, rfl⟩
    · rw [if_neg hid] at hpid
      exact absurd hpid hid
  · intro p hp hpid
    simp only [prorata_adjust] at hp
    rw [h] at hp
    simp only [List.mem_map] at hp
    obtain ⟨q, hq, rfl⟩ := hp
    by_cases hid : q.id = pid
    · rw [if_pos hid]
      exact ⟨rfl, rfl⟩
    · rw [if_neg hid] at hpid
      exact absurd hpid hid

/-- Witness for C6: setting the demonstration parcel's area to 54,424
square feet recomputes its campus share under both operations. -/
theorem pct_campus_recompute_witness :
    (∀ p ∈ (update_parcel_numeric demoState 10 .sqft (r"54,424")
        (r"2026-01-02 09:00:00") (r"Updated Square Footage to: 54424")).parcels,
      p.id = 10 →
        p.sqft = some 54424 ∧
        p.pct_campus = some ((54424 : ℚ) / TOTAL_CAMPUS_SQFT)) ∧
    (∀ p ∈ (prorata_adjust demoState 10 (r"54,424")
        (r"2026-01-02 09:00:00") (r"Updated Square Footage to: 54424")).parcels,
      p.id = 10 →
        p.sqft = some 54424 ∧
        p.pct_campus = some ((54424 : ℚ) / TOTAL_CAMPUS_SQFT)) :=
  pct_campus_recompute demoState 10 (r"54,424")
    (r"2026-01-02 09:00:00") (r"Updated Square Footage to: 54424") 54424 (by decide)

end KirbyGate
